import Mathlib

/-!
# Verification of the sfy buoy firmware core

Shallow embedding of the data-acquisition → storage → uplink pipeline of the
sfy buoy firmware (`src/sfy-buoy/src/lib.rs` and
`src/sfy-buoy/sfypack/src/main.rs`), together with theorems settling the
specification claims about `StorageManager::drain_queue`,
`Location::check_retrieve`, `State::now` and `Collection::from_file`.

External capabilities (the `storage` and `note` modules, the RTC and the
notecard transport) are not part of the provided sources; per the spec they
are interfaces only and are modelled here as oracle parameters.
-/

set_option maxRecDepth 10000

namespace Sfy

/-- Decidable equality for `Except`, used so that concrete runs of the model
can be checked by `decide`. -/
instance {ε α : Type} [DecidableEq ε] [DecidableEq α] : DecidableEq (Except ε α) :=
  fun x y =>
    match x, y with
    | .ok a, .ok b =>
      if h : a = b then .isTrue (by rw [h]) else .isFalse (by simp [h])
    | .error a, .error b =>
      if h : a = b then .isTrue (by rw [h]) else .isFalse (by simp [h])
    | .ok _, .error _ => .isFalse (by simp)
    | .error _, .ok _ => .isFalse (by simp)

/-- Opaque stand-in for `f64` coordinate values: the modelled core only ever
copies latitude/longitude values, it never computes with them. -/
abbrev F64 := Int

/-- Error of the notecard peer transport (`notecard::NoteError`), opaque to
the modelled core. -/
inductive NoteError where
  | err (code : Nat)
deriving DecidableEq, Repr

/-- Modelled from the spec: `embedded_sdmmc::Error`; the core distinguishes
only `FileNotFound` (record-not-found is an expected condition, spec §7). -/
inductive SdMmcError where
  | fileNotFound
  | otherSd (code : Nat)
deriving DecidableEq, Repr

/-- Modelled from the spec: `storage::StorageErr` (the `storage` module is an
external capability); `drain_queue` pattern-matches only on
`GenericSdMmmcErr(FileNotFound)`, every other value is unrecoverable. -/
inductive StorageErr where
  | genericSdMmmcErr (e : SdMmcError)
  | otherErr (code : Nat)
deriving DecidableEq, Repr

/-- Bounded single-producer/single-consumer FIFO (`heapless::spsc::Queue`),
modelled as the list of queued items plus a capacity. -/
structure BQueue (α : Type) where
  items : List α
  cap : Nat
deriving DecidableEq, Repr

/-- `enqueue`: appends at the tail, or rejects by returning the item when the
queue is full (never blocks, never grows). -/
def BQueue.enqueue (q : BQueue α) (a : α) : Except α (BQueue α) :=
  if q.items.length < q.cap then .ok ⟨q.items ++ [a], q.cap⟩ else .error a

/-- `dequeue`: pops the head item, or nothing when empty. -/
def BQueue.dequeue (q : BQueue α) : Option (α × BQueue α) :=
  match q.items with
  | [] => none
  | x :: xs => some (x, ⟨xs, q.cap⟩)

/-- Modelled from the spec: the local-storage capability consumed by
`StorageManager` (spec §6): `store(packet)->id`, `get(id)->record`,
`current_id()->id`, plus the `COLLECTION_SIZE` constant of the missing
`storage` module. Each operation's behaviour is an oracle fixed per
scenario; `α` is the packet type, which `drain_queue` never inspects. -/
structure Storage (α : Type) where
  collection_size : Nat
  store : α → Except StorageErr Nat
  get : Nat → Except StorageErr α
  current_id : Except StorageErr Nat

/-- Modelled from the spec: `note::StorageIdInfo`, the peer-held
synchronization state read by `read_storage_info` (spec §6). -/
structure StorageIdInfo where
  current_id : Nat
  request_start : Option Nat
  request_end : Option Nat
deriving DecidableEq, Repr

/-- Provenance of one `write_storage_info` call inside `drain_queue`
(model instrumentation): after a successful send of a stored record, after a
record-not-found skip to the next collection boundary, or the idle write made
when no full request range was read from the peer. -/
inductive WriteKind where
  | sent
  | skipped
  | idle
deriving DecidableEq, Repr

/-- Arguments of one `note.write_storage_info(delay, last_id, request_start,
request_end)` call made by `drain_queue`, tagged with its provenance. -/
structure WriteInfo where
  last_id : Nat
  request_start : Option Nat
  request_end : Option Nat
  kind : WriteKind
deriving DecidableEq, Repr

/-- Modelled from the spec: the notecard peer as `drain_queue` sees it — the
result that `read_storage_info` returns during the call, and the log of
`write_storage_info` calls made so far (write errors are ignored by the
source, so only the arguments matter). -/
structure Notecard where
  info : Except NoteError (Option StorageIdInfo)
  writes : List WriteInfo
deriving DecidableEq, Repr

/-- The `while let Some(mut pck) = self.storage_queue.dequeue()` loop of
`drain_queue` (lib.rs:285-308): for each dequeued packet, store it when
storage is present — the running result `e` being overwritten by every store
call — and then forward it to the note queue unconditionally, dropping it when
that queue is full. Returns the final note queue and the final `e`. -/
def drain_loop (storage : Option (Storage α)) :
    List α → BQueue α → Except StorageErr (Option Nat) →
      BQueue α × Except StorageErr (Option Nat)
  | [], nq, e => (nq, e)
  | pck :: rest, nq, e =>
    let e' := match storage with
      | some st => (st.store pck).map some
      | none => e
    let nq' := match nq.enqueue pck with
      | .ok q => q
      | .error _ => nq
    drain_loop storage rest nq' e'

/-- The `for id in (request_start..request_end).take(100)` replay loop of
`drain_queue` (lib.rs:320-376). `rs` and `re` are the bounds read once from
the peer; the per-iteration updates recompute from these fixed bounds (the
inner `let request_start` rebinds, it does not advance the outer binding).
Returns the note queue, the write log, and the unrecoverable error if one
aborted the loop early. -/
def replay_loop (st : Storage α) (last_id rs re : Nat) :
    List Nat → BQueue α → List WriteInfo →
      BQueue α × List WriteInfo × Option StorageErr
  | [], nq, ws => (nq, ws, none)
  | id :: rest, nq, ws =>
    match st.get id with
    | .ok pck =>
      match nq.enqueue pck with
      | .ok nq' =>
        let rs' := min (rs + 1) re
        let w : WriteInfo :=
          if rs' = re then ⟨last_id, none, none, .sent⟩
          else ⟨last_id, some rs', some re, .sent⟩
        replay_loop st last_id rs re rest nq' (ws ++ [w])
      | .error _ => (nq, ws, none)
    | .error (.genericSdMmmcErr .fileNotFound) =>
      let rs' := (id / st.collection_size + 1) * st.collection_size
      let w : WriteInfo :=
        if rs' = re then ⟨last_id, none, none, .skipped⟩
        else ⟨last_id, some rs', some re, .skipped⟩
      replay_loop st last_id rs re rest nq (ws ++ [w])
    | .error e => (nq, ws, some e)

/-- Result of one `drain_queue` call: either the panic of the `unwrap` on
`current_id` (lib.rs:312), or the returned `Result` together with the final
note queue and the log of peer writes. -/
inductive DrainResult (α : Type) where
  | panics
  | done (res : Except StorageErr (Option Nat)) (note_queue : BQueue α)
      (writes : List WriteInfo)
deriving DecidableEq, Repr

/-- The `Result` value a finished `drain_queue` call returned, when it did not
panic. -/
def DrainResult.res? : DrainResult α → Option (Except StorageErr (Option Nat))
  | .panics => none
  | .done r _ _ => some r

/-- The note queue a finished `drain_queue` call left behind. -/
def DrainResult.queue? : DrainResult α → Option (BQueue α)
  | .panics => none
  | .done _ q _ => some q

/-- The `write_storage_info` calls a finished `drain_queue` call made. -/
def DrainResult.writes? : DrainResult α → Option (List WriteInfo)
  | .panics => none
  | .done _ _ w => some w

/-- `StorageManager::drain_queue` (lib.rs:272-386): drain the storage queue,
forwarding every packet to the note queue; then, when storage is present,
read `current_id` (panicking on failure, via `unwrap`), read the peer's
request range and, when a full range is present, replay up to 100 stored
records from it; otherwise write back the current highest id with a cleared
range. Returns `e`, the result of the last store call of the drain loop,
unless an unrecoverable replay error overrides it. -/
def drain_queue (storage : Option (Storage α)) (note : Notecard)
    (storage_queue : List α) (note_queue : BQueue α) : DrainResult α :=
  let r := drain_loop storage storage_queue note_queue (.ok none)
  let nq := r.1
  let e := r.2
  match storage with
  | none => .done e nq note.writes
  | some st =>
    match st.current_id with
    | .error _ => .panics
    | .ok last_id =>
      match note.info with
      | .ok (some ⟨_, some rs, some re⟩) =>
        let ids := List.range' rs (min (re - rs) 100)
        let out := replay_loop st last_id rs re ids nq note.writes
        match out.2.2 with
        | some er => .done (.error er) out.1 out.2.1
        | none => .done e out.1 out.2.1
      | _ => .done e nq (note.writes ++ [⟨last_id, none, none, .idle⟩])

/-- The outcome of the last store call of a drain loop over `sq`: the id it
assigned on success, its error on failure, `Ok(None)` when no packet was
dequeued. -/
def last_store_result (st : Storage α) (sq : List α) :
    Except StorageErr (Option Nat) :=
  match sq.getLast? with
  | none => .ok none
  | some p => (st.store p).map some

/-- Modelled from the spec: the settable real-time clock
(`ambiq_hal::rtc::Rtc`), reduced to the millisecond timestamp it reports;
setting it to a whole-second epoch time makes `now` report that time (the
model does not advance the clock between the operations of one call). -/
structure Rtc where
  millis : Int
deriving DecidableEq, Repr

/-- `Rtc::set` to `NaiveDateTime::from_timestamp(secs, 0)`: afterwards
`now().timestamp_millis()` reports `secs * 1000`. -/
def Rtc.set (_r : Rtc) (secs : Int) : Rtc := ⟨secs * 1000⟩

/-- `SharedState` (lib.rs:69-74): the critical-section-guarded shared clock
and position. -/
structure SharedState where
  rtc : Rtc
  position_time : Nat
  lon : F64
  lat : F64
deriving DecidableEq, Repr

/-- `State::now` (lib.rs:80-89): reads the RTC inside a critical section; the
`unwrap` aborts the process (modelled as `none`) when the shared state was
never initialised. -/
def state_now (s : Option SharedState) : Option Int :=
  s.map fun st => st.rtc.millis

/-- `LocationState` (lib.rs:91-95): two-state backoff machine with embedded
timestamp. -/
inductive LocationState where
  | Trying (t : Int)
  | Retrieved (t : Int)
deriving DecidableEq, Repr

/-- The timestamp embedded in either state, as extracted by the
`Retrieved(t) | Trying(t)` pattern of `check_retrieve`. -/
def LocationState.timestamp : LocationState → Int
  | .Trying t => t
  | .Retrieved t => t

/-- `Location` (lib.rs:97-105): the location/time tracker. -/
structure Location where
  lat : F64
  lon : F64
  position_time : Nat
  time : Nat
  state : LocationState
deriving DecidableEq, Repr

/-- Modelled from the spec: `notecard::card::res::Location`, the GPS result
returned by the peer (three independent optional fields). -/
structure GpsLocation where
  lat : Option F64
  lon : Option F64
  time : Option Nat
deriving DecidableEq, Repr

/-- Modelled from the spec: `notecard::card::res::Time`. -/
structure TimeRes where
  time : Option Nat
deriving DecidableEq, Repr

/-- Modelled from the spec: the outcomes of the peer requests one
`check_retrieve` attempt makes — the location request (both of its phases
propagate errors with `?`, so they are merged), the initiation of the time
request (its error propagates with `?`), and the awaited time result (kept as
a `Result`). -/
structure Peer where
  location : Except NoteError GpsLocation
  time_start : Except NoteError Unit
  time_wait : Except NoteError TimeRes
deriving DecidableEq, Repr

/-- One of the four fields of the shared clock-and-position state. -/
inductive SField where
  | clock
  | position_time
  | lat
  | lon
deriving DecidableEq, Repr

/-- One critical-section acquisition (`free(|cs| ...)` block) performed during
a `check_retrieve` call, instrumented with the shared-state fields it reads
and writes. -/
structure CsEvent where
  reads : List SField
  writes : List SField
deriving DecidableEq, Repr

/-- `LOCATION_DIFF` (lib.rs:127): backoff threshold in milliseconds. -/
def LOCATION_DIFF : Int := 1 * 60000

/-- Result of one `check_retrieve` call: the returned `Result`, the updated
tracker, the updated shared state, and the trace of critical-section
acquisitions performed. -/
structure CRout where
  res : Except NoteError Unit
  loc : Location
  shared : SharedState
  trace : List CsEvent
deriving DecidableEq, Repr

/-- `Location::check_retrieve` (lib.rs:118-192). Reads `now` from the shared
clock (one critical section); when the backoff threshold has elapsed,
requests location and time from the peer (transport errors propagate with
`?`, leaving the tracker untouched), sets the RTC when a time came back (one
critical section), sets the position fields when a complete location came
back (one critical section), and transitions to `Retrieved` — re-reading the
corrected clock in a further critical section — exactly when the time was
returned and the location result's `lat` field was present, otherwise to
`Trying(now)`. -/
def check_retrieve (loc : Location) (st : SharedState) (peer : Peer) : CRout :=
  let ev0 : CsEvent := ⟨[.clock], []⟩
  let now := st.rtc.millis
  match loc.state with
  | .Retrieved t | .Trying t =>
    if now - t > LOCATION_DIFF then
      match peer.location with
      | .error e => ⟨.error e, loc, st, [ev0]⟩
      | .ok gps =>
        match peer.time_start with
        | .error e => ⟨.error e, loc, st, [ev0]⟩
        | .ok _ =>
          let tm := peer.time_wait
          let s1 : Location × SharedState × List CsEvent :=
            match tm with
            | .ok ⟨some time⟩ =>
              ⟨{ loc with time := time },
               { st with rtc := st.rtc.set (time : Int) },
               [⟨[], [.clock]⟩]⟩
            | _ => ⟨loc, st, []⟩
          let s2 : Location × SharedState × List CsEvent :=
            match gps with
            | ⟨some la, some lo, some pt⟩ =>
              ⟨{ s1.1 with lat := la, lon := lo, position_time := pt },
               { s1.2.1 with position_time := pt, lat := la, lon := lo },
               s1.2.2 ++ [⟨[], [.position_time, .lat, .lon]⟩]⟩
            | _ => s1
          match tm, gps.lat with
          | .ok ⟨some _⟩, some _ =>
            ⟨.ok (), { s2.1 with state := .Retrieved s2.2.1.rtc.millis },
             s2.2.1, [ev0] ++ s2.2.2 ++ [⟨[.clock], []⟩]⟩
          | _, _ =>
            ⟨.ok (), { s2.1 with state := .Trying now }, s2.2.1,
             [ev0] ++ s2.2.2⟩
    else ⟨.ok (), loc, st, [ev0]⟩

/-- Modelled from the spec: `Collection::from_file` needs the record size
`AXL_POSTCARD_SZ` and the postcard/COBS decoder of one record; both live
outside the provided sources, so the decoder is an oracle parameter `decode`
and the size a parameter `sz`. `chunks_n n sz b` is `b.chunks_exact(sz)`
limited to `n` chunks. -/
def chunks_n (sz : Nat) : Nat → List UInt8 → List (List UInt8)
  | 0, _ => []
  | n + 1, b => b.take sz :: chunks_n sz n (b.drop sz)

/-- `Collection::from_file` (sfypack/src/main.rs:27-47) on the bytes of an
already-read file: `ensure!` that the byte length is an exact multiple of the
record size, then decode every `AXL_POSTCARD_SZ`-sized chunk, failing on the
first chunk that does not parse. `π` is the packet type produced by the
decoder. -/
def from_file {π : Type} (sz : Nat) (decode : List UInt8 → Except Unit π)
    (b : List UInt8) : Except Unit (List π) :=
  if b.length % sz = 0 then
    (chunks_n sz (b.length / sz) b).mapM decode
  else
    .error ()

/-- Storage oracle of the spec §8 replay scenario: records 5, 6 and 8 present
(each packet is its own id), record 7 missing, `COLLECTION_SIZE = 5`, current
highest id 8, stores always succeed. -/
def replay_scenario_storage : Storage Nat :=
  ⟨5, fun _ => .ok 0,
   fun id =>
     if id = 7 then .error (.genericSdMmmcErr .fileNotFound)
     else if 5 ≤ id ∧ id ≤ 8 then .ok id
     else .error (.otherErr 1),
   .ok 8⟩

/-- One `drain_queue` call in the spec §8 replay scenario: peer request range
`[5, 9)`, empty storage queue, uplink queue of capacity 24 (never full). -/
def replay_scenario : DrainResult Nat :=
  drain_queue (some replay_scenario_storage)
    ⟨.ok (some ⟨8, some 5, some 9⟩), []⟩ [] ⟨[], 24⟩

/- ### Helper lemmas -/

/-- The note queue after the drain loop, when it never fills: every dequeued
packet appended once, in order, whatever the storage does. -/
theorem drain_loop_queue {α : Type} (storage : Option (Storage α)) :
    ∀ (sq : List α) (nq : BQueue α) (e : Except StorageErr (Option Nat)),
      nq.items.length + sq.length ≤ nq.cap →
      (drain_loop storage sq nq e).1 = ⟨nq.items ++ sq, nq.cap⟩ := by
  intro sq
  induction sq with
  | nil => intro nq e _; simp [drain_loop]
  | cons p rest ih =>
    intro nq e h
    have hlt : nq.items.length < nq.cap := by
      simp only [List.length_cons] at h; omega
    have h' : (nq.items ++ [p]).length + rest.length ≤ nq.cap := by
      simp only [List.length_append, List.length_cons, List.length_nil] at h ⊢
      omega
    simp only [drain_loop, BQueue.enqueue, if_pos hlt]
    rw [ih ⟨nq.items ++ [p], nq.cap⟩ _ h']
    simp

/-- The running result `e` after the drain loop with storage present equals
the outcome of the last store call (it is overwritten every iteration). -/
theorem drain_loop_res {α : Type} (st : Storage α) :
    ∀ (sq : List α) (nq : BQueue α) (e : Except StorageErr (Option Nat)),
      (drain_loop (some st) sq nq e).2 =
        match sq.getLast? with
        | none => e
        | some p => (st.store p).map some := by
  intro sq
  induction sq with
  | nil => intro nq e; rfl
  | cons p rest ih =>
    intro nq e
    have step : drain_loop (some st) (p :: rest) nq e =
        drain_loop (some st) rest
          (match nq.enqueue p with | .ok q => q | .error _ => nq)
          ((st.store p).map some) := rfl
    rw [step, ih]
    cases rest with
    | nil => rfl
    | cons q rest2 =>
      simp only [List.getLast?_cons_cons]
      cases h : (q :: rest2).getLast? with
      | none => simp at h
      | some x => rfl

/- ### Claim C1 -/

/-- C1 amended: in the spec §8 replay scenario (range `[5,9)`, records 5, 6, 8
present, 7 missing, `COLLECTION_SIZE = 5`, uplink queue never full), one
`drain_queue` call forwards the three records 5, 6 and 8 (not only 5 and 6),
and the range finally written to the peer is `{start = 6, end = 9}`, not
cleared: every successful send recomputes `start` from the bounds read at the
beginning of the call, and iteration continues over the original range after
the not-found boundary jump. -/
theorem c1_replay_actual :
    replay_scenario =
      .done (.ok none) ⟨[5, 6, 8], 24⟩
        [⟨8, some 6, some 9, .sent⟩, ⟨8, some 6, some 9, .sent⟩,
         ⟨8, some 10, some 9, .skipped⟩, ⟨8, some 6, some 9, .sent⟩] := by
  decide

/-- C1 counterexample: in the very scenario of the claim, the uplink queue
receives records 5, 6 and 8 — not exactly 5 and 6 — and the last range written
to the peer is `{start = 6, end = 9}`, not `{start = None, end = None}`. -/
theorem c1_counterexample :
    replay_scenario.queue? = some ⟨[5, 6, 8], 24⟩ ∧
    ¬ replay_scenario.queue? = some ⟨[5, 6], 24⟩ ∧
    (replay_scenario.writes?.getD []).getLast?.map
        (fun w => (w.request_start, w.request_end)) = some (some 6, some 9) ∧
    ¬ (replay_scenario.writes?.getD []).getLast?.map
        (fun w => (w.request_start, w.request_end)) = some (none, none) := by
  decide

/- ### Claim C2 -/

/-- C2: every packet dequeued from the storage queue during the drain loop of
`drain_queue` is enqueued onto the uplink (note) queue exactly once — the note
queue ends as the old items followed by the dequeued packets in order —
whether storage is absent, or its store calls succeed or fail, provided the
uplink queue does not fill up. -/
theorem c2_every_dequeued_forwarded {α : Type} (storage : Option (Storage α))
    (sq : List α) (nq : BQueue α) (e : Except StorageErr (Option Nat))
    (h : nq.items.length + sq.length ≤ nq.cap) :
    (drain_loop storage sq nq e).1 = ⟨nq.items ++ sq, nq.cap⟩ :=
  drain_loop_queue storage sq nq e h

/-- C2 witness: three packets, a storage whose store calls all fail — all
three still end on the note queue. -/
theorem c2_witness :
    ((⟨[], 8⟩ : BQueue Nat).items.length + [1, 2, 3].length ≤
        (⟨[], 8⟩ : BQueue Nat).cap) ∧
    (drain_loop
        (some ⟨5, fun _ => .error (.otherErr 0), fun _ => .error (.otherErr 1),
          .ok 0⟩)
        [1, 2, 3] ⟨[], 8⟩ (.ok none)).1 = ⟨[1, 2, 3], 8⟩ :=
  ⟨by decide,
   c2_every_dequeued_forwarded
     (some ⟨5, fun _ => .error (.otherErr 0), fun _ => .error (.otherErr 1),
       .ok 0⟩)
     [1, 2, 3] ⟨[], 8⟩ (.ok none) (by decide)⟩

/- ### Claim C4 -/

/-- C4 amended: with storage present (and `current_id` succeeding, the peer
reporting no storage info), `drain_queue` returns the outcome of the *last*
store call of the drain loop — the id it assigned on success, its error on
failure, `Ok(None)` when nothing was dequeued — rather than propagating the
first error; and forwarding still happens for every dequeued packet when the
uplink queue has room. -/
theorem c4_last_store_outcome {α : Type} (cs : Nat)
    (f : α → Except StorageErr Nat) (g : Nat → Except StorageErr α)
    (lid : Nat) (sq : List α) (nq : BQueue α) :
    (drain_queue (some ⟨cs, f, g, .ok lid⟩) ⟨.ok none, []⟩ sq nq).res? =
      some (last_store_result ⟨cs, f, g, .ok lid⟩ sq) ∧
    (nq.items.length + sq.length ≤ nq.cap →
      (drain_queue (some ⟨cs, f, g, .ok lid⟩) ⟨.ok none, []⟩ sq nq).queue? =
        some ⟨nq.items ++ sq, nq.cap⟩) := by
  constructor
  · show some (drain_loop (some ⟨cs, f, g, .ok lid⟩) sq nq (.ok none)).2 = _
    rw [drain_loop_res]
    rfl
  · intro h
    show some (drain_loop (some ⟨cs, f, g, .ok lid⟩) sq nq (.ok none)).1 = _
    rw [drain_loop_queue _ _ _ _ h]

/-- C4 witness: the last store call succeeded with id 7, so the call returns
`Ok(Some 7))` and both packets are forwarded. -/
theorem c4_witness :
    (drain_queue (α := Nat)
        (some ⟨5, fun p => if p = 1 then .error (.otherErr 0) else .ok 7,
          fun _ => .error (.otherErr 1), .ok 9⟩)
        ⟨.ok none, []⟩ [1, 2] ⟨[], 24⟩).res? = some (.ok (some 7)) ∧
    (drain_queue (α := Nat)
        (some ⟨5, fun p => if p = 1 then .error (.otherErr 0) else .ok 7,
          fun _ => .error (.otherErr 1), .ok 9⟩)
        ⟨.ok none, []⟩ [1, 2] ⟨[], 24⟩).queue? = some ⟨[1, 2], 24⟩ := by
  have h := c4_last_store_outcome (α := Nat) 5
    (fun p => if p = 1 then .error (.otherErr 0) else .ok 7)
    (fun _ => .error (.otherErr 1)) 9 [1, 2] ⟨[], 24⟩
  exact ⟨h.1.trans (by decide), (h.2 (by decide)).trans (by decide)⟩

/-- C4 counterexample: two packets; the store of the first fails with an
unrecoverable error, the store of the second succeeds with id 7. The claim
says the first error is propagated; the call actually returns `Ok(Some 7)`,
silently swallowing the earlier error. -/
theorem c4_counterexample :
    (drain_queue (α := Nat)
        (some ⟨5, fun p => if p = 1 then .error (.otherErr 0) else .ok 7,
          fun _ => .error (.otherErr 1), .ok 9⟩)
        ⟨.ok none, []⟩ [1, 2] ⟨[], 24⟩).res? = some (.ok (some 7)) ∧
    ¬ (drain_queue (α := Nat)
        (some ⟨5, fun p => if p = 1 then .error (.otherErr 0) else .ok 7,
          fun _ => .error (.otherErr 1), .ok 9⟩)
        ⟨.ok none, []⟩ [1, 2] ⟨[], 24⟩).res? = some (.error (.otherErr 0)) := by
  decide

/- ### Claim C8 -/

/-- C8 amended: `drain_queue` never panics as long as reading the current
highest id succeeds — unrecoverable replay errors are returned as `Err` — and
`State::now` returns the clock without aborting whenever the shared state has
been initialised; a failing `current_id` read, however, panics (the `unwrap`
at lib.rs:312), and `State::now` aborts when the state is uninitialised. -/
theorem c8_no_panic_conditions {α : Type} :
    (∀ (cs : Nat) (f : α → Except StorageErr Nat) (g : Nat → Except StorageErr α)
        (lid : Nat) (note : Notecard) (sq : List α) (nq : BQueue α),
        drain_queue (some ⟨cs, f, g, .ok lid⟩) note sq nq ≠ .panics) ∧
    (∀ s : SharedState, state_now (some s) = some s.rtc.millis) ∧
    state_now none = none := by
  refine ⟨?_, fun s => rfl, rfl⟩
  intro cs f g lid note sq nq
  obtain ⟨info, ws⟩ := note
  rcases info with e | oinfo
  · simp [drain_queue]
  rcases oinfo with _ | ⟨cid, rso, reo⟩
  · simp [drain_queue]
  rcases rso with _ | rs
  · simp [drain_queue]
  rcases reo with _ | re
  · simp [drain_queue]
  · simp only [drain_queue]
    cases h2 : (replay_loop ⟨cs, f, g, .ok lid⟩ lid rs re
        (List.range' rs (min (re - rs) 100))
        (drain_loop (some ⟨cs, f, g, .ok lid⟩) sq nq (.ok none)).1 ws).2.2 <;>
      simp [h2]

/-- C8 witness: a concrete call with `current_id` succeeding does not panic,
and `State::now` on an initialised state returns its clock. -/
theorem c8_witness :
    drain_queue (α := Nat)
        (some ⟨5, fun _ => .ok 0, fun _ => .error (.otherErr 1), .ok 3⟩)
        ⟨.ok none, []⟩ [] ⟨[], 8⟩ ≠ .panics ∧
    state_now (some ⟨⟨5⟩, 0, 0, 0⟩) = some 5 :=
  ⟨(c8_no_panic_conditions (α := Nat)).1 5 (fun _ => .ok 0)
     (fun _ => .error (.otherErr 1)) 3 ⟨.ok none, []⟩ [] ⟨[], 8⟩,
   (c8_no_panic_conditions (α := Nat)).2.1 ⟨⟨5⟩, 0, 0, 0⟩⟩

/-- C8 counterexample: when reading the current highest id fails,
`drain_queue` panics via `unwrap` instead of returning an `Err` value, and
`State::now` on an uninitialised shared state aborts instead of returning. -/
theorem c8_counterexample :
    drain_queue (α := Nat)
        (some ⟨5, fun _ => .ok 0, fun _ => .error (.otherErr 1),
          .error (.otherErr 3)⟩)
        ⟨.ok none, []⟩ [] ⟨[], 8⟩ = .panics ∧
    state_now none = none :=
  ⟨rfl, rfl⟩

/- ### Claim C10 -/

/-- C10: if storage is available and the peer's storage info read succeeds but
reports a partial range (exactly one bound present), `drain_queue` fetches no
stored records — the note queue is exactly what the drain loop left — and
makes exactly one peer write, carrying the current highest local id with both
bounds cleared. Both one-sided cases are covered. -/
theorem c10_partial_range_clears {α : Type} (cs : Nat)
    (f : α → Except StorageErr Nat) (g : Nat → Except StorageErr α)
    (lid cid x : Nat) (sq : List α) (nq : BQueue α) :
    drain_queue (some ⟨cs, f, g, .ok lid⟩) ⟨.ok (some ⟨cid, some x, none⟩), []⟩
        sq nq =
      .done (drain_loop (some ⟨cs, f, g, .ok lid⟩) sq nq (.ok none)).2
        (drain_loop (some ⟨cs, f, g, .ok lid⟩) sq nq (.ok none)).1
        [⟨lid, none, none, .idle⟩] ∧
    drain_queue (some ⟨cs, f, g, .ok lid⟩) ⟨.ok (some ⟨cid, none, some x⟩), []⟩
        sq nq =
      .done (drain_loop (some ⟨cs, f, g, .ok lid⟩) sq nq (.ok none)).2
        (drain_loop (some ⟨cs, f, g, .ok lid⟩) sq nq (.ok none)).1
        [⟨lid, none, none, .idle⟩] :=
  ⟨rfl, rfl⟩

/- ### Claim C3 -/

/-- Both range bounds present or both absent (the shape half of the spec's
RequestRange invariant). -/
def both_bounds (w : WriteInfo) : Bool :=
  w.request_start.isSome == w.request_end.isSome

/-- The full RequestRange invariant on one written range: both bounds present
with `start ≤ end`, or both absent. -/
def range_ok (w : WriteInfo) : Bool :=
  match w.request_start, w.request_end with
  | some s, some e => decide (s ≤ e)
  | none, none => true
  | _, _ => false

/-- The amended per-write guarantee: both bounds present or both absent
always, and the full invariant for every write that is not a
record-not-found skip. -/
def good_write (w : WriteInfo) : Bool :=
  both_bounds w && (w.kind == WriteKind.skipped || range_ok w)

/-- Every write the replay loop appends is a `good_write`. -/
theorem replay_loop_writes_good {α : Type} (st : Storage α)
    (lid rs re : Nat) :
    ∀ (ids : List Nat) (nq : BQueue α) (ws : List WriteInfo),
      ws.all good_write = true →
      ((replay_loop st lid rs re ids nq ws).2.1).all good_write = true := by
  intro ids
  induction ids with
  | nil => intro nq ws h; exact h
  | cons id rest ih =>
    intro nq ws h
    have hsent : good_write
        (if min (rs + 1) re = re then (⟨lid, none, none, .sent⟩ : WriteInfo)
         else ⟨lid, some (min (rs + 1) re), some re, .sent⟩) = true := by
      by_cases hmin : min (rs + 1) re = re
      · simp [hmin, good_write, both_bounds, range_ok]
      · simp [hmin, good_write, both_bounds, range_ok, min_le_right]
    have hskip : good_write
        (if (id / st.collection_size + 1) * st.collection_size = re
         then (⟨lid, none, none, .skipped⟩ : WriteInfo)
         else ⟨lid, some ((id / st.collection_size + 1) * st.collection_size),
           some re, .skipped⟩) = true := by
      by_cases hb : (id / st.collection_size + 1) * st.collection_size = re <;>
        simp [hb, good_write, both_bounds, range_ok]
    rcases hg : st.get id with err | pck
    · rcases err with se | code
      · rcases se with _ | c2
        · simp only [replay_loop, hg]
          apply ih
          rw [List.all_append]
          simp only [h, Bool.true_and, List.all_cons, List.all_nil,
            Bool.and_true]
          exact hskip
        · simp only [replay_loop, hg]
          exact h
      · simp only [replay_loop, hg]
        exact h
    · rcases he : nq.enqueue pck with rej | nq'
      · simp only [replay_loop, hg, he]
        exact h
      · simp only [replay_loop, hg, he]
        apply ih
        rw [List.all_append]
        simp only [h, Bool.true_and, List.all_cons, List.all_nil,
          Bool.and_true]
        exact hsent

/-- C3 amended: every RequestRange that `drain_queue` writes back to the peer
has both bounds present or both absent, and every range written after a
successful send or as the idle bookkeeping write additionally satisfies
`request_start ≤ request_end`; only a range written after a record-not-found
skip may violate the order, namely when the collection-boundary jump exceeds
`request_end`. -/
theorem c3_written_ranges {α : Type} (storage : Option (Storage α))
    (info : Except NoteError (Option StorageIdInfo)) (sq : List α)
    (nq : BQueue α) :
    ((drain_queue storage ⟨info, []⟩ sq nq).writes?.getD []).all good_write =
      true := by
  rcases storage with _ | st
  · simp [drain_queue, DrainResult.writes?]
  rcases hcid : st.current_id with e2 | lid
  · simp [drain_queue, hcid, DrainResult.writes?]
  rcases info with e | oinfo
  · simp [drain_queue, hcid, DrainResult.writes?, good_write, both_bounds,
      range_ok]
  rcases oinfo with _ | ⟨cid, rso, reo⟩
  · simp [drain_queue, hcid, DrainResult.writes?, good_write, both_bounds,
      range_ok]
  rcases rso with _ | rs
  · simp [drain_queue, hcid, DrainResult.writes?, good_write, both_bounds,
      range_ok]
  rcases reo with _ | re
  · simp [drain_queue, hcid, DrainResult.writes?, good_write, both_bounds,
      range_ok]
  · simp only [drain_queue, hcid]
    split <;>
    · simp only [DrainResult.writes?, Option.getD]
      exact replay_loop_writes_good st lid rs re _ _ [] rfl

/-- C3 counterexample: request range `[7, 9)` with record 7 missing and
`COLLECTION_SIZE = 5`. The skip writes the range `{start = 10, end = 9}` —
`request_start > request_end` with both present — violating the invariant
the claim asserts for every written range. -/
theorem c3_counterexample :
    ((drain_queue (α := Nat)
        (some ⟨5, fun _ => .ok 0,
          fun id =>
            if id = 7 then .error (.genericSdMmmcErr .fileNotFound)
            else if id = 8 then .ok id
            else .error (.otherErr 1),
          .ok 8⟩)
        ⟨.ok (some ⟨8, some 7, some 9⟩), []⟩ [] ⟨[], 24⟩).writes?.getD []) =
      [⟨8, some 10, some 9, .skipped⟩, ⟨8, some 8, some 9, .sent⟩] ∧
    ((drain_queue (α := Nat)
        (some ⟨5, fun _ => .ok 0,
          fun id =>
            if id = 7 then .error (.genericSdMmmcErr .fileNotFound)
            else if id = 8 then .ok id
            else .error (.otherErr 1),
          .ok 8⟩)
        ⟨.ok (some ⟨8, some 7, some 9⟩), []⟩ [] ⟨[], 24⟩).writes?.getD
          []).all range_ok = false := by
  decide

/- ### Claim C5 -/

/-- C5 amended: when the backoff threshold has elapsed and the peer transport
did not error, `check_retrieve` transitions to `Retrieved` — with its
timestamp re-read from the just-corrected clock — exactly when the time was
returned and the location result's `lat` field was present; the `lon` and
`time` fields of the location are not checked, so a partial location with
only `lat` set still yields `Retrieved`. Every other combination yields
`Trying(now)`. -/
theorem c5_retrieved_condition (loc : Location) (st : SharedState)
    (peer : Peer) (gps : GpsLocation)
    (helapsed : st.rtc.millis - loc.state.timestamp > LOCATION_DIFF)
    (hloc : peer.location = .ok gps)
    (hts : peer.time_start = .ok ()) :
    (check_retrieve loc st peer).loc.state =
      match peer.time_wait, gps.lat with
      | .ok ⟨some time⟩, some _ => .Retrieved ((time : Int) * 1000)
      | _, _ => .Trying st.rtc.millis := by
  obtain ⟨lla, llo, lpt, ltm, ls⟩ := loc
  obtain ⟨glat, glon, gtime⟩ := gps
  rcases htw : peer.time_wait with e | ⟨tmo⟩ <;>
    cases ls <;>
    simp only [LocationState.timestamp] at helapsed <;>
    rcases glat with _ | la <;>
    rcases glon with _ | lo <;>
    rcases gtime with _ | pt <;>
    (try rcases tmo with _ | tval) <;>
    simp [check_retrieve, hloc, hts, htw, helapsed, Rtc.set]

/-- C5 witness: threshold elapsed, transport fine, peer returned the time and
a complete location — the tracker ends `Retrieved` at the corrected clock. -/
theorem c5_witness :
    ((⟨⟨61000⟩, 0, 0, 0⟩ : SharedState).rtc.millis -
        (⟨0, 0, 0, 0, .Trying 0⟩ : Location).state.timestamp > LOCATION_DIFF) ∧
    (check_retrieve ⟨0, 0, 0, 0, .Trying 0⟩ ⟨⟨61000⟩, 0, 0, 0⟩
        ⟨.ok ⟨some 1, some 2, some 3⟩, .ok (), .ok ⟨some 42⟩⟩).loc.state =
      .Retrieved 42000 :=
  ⟨by decide,
   (c5_retrieved_condition ⟨0, 0, 0, 0, .Trying 0⟩ ⟨⟨61000⟩, 0, 0, 0⟩
       ⟨.ok ⟨some 1, some 2, some 3⟩, .ok (), .ok ⟨some 42⟩⟩
       ⟨some 1, some 2, some 3⟩ (by decide) rfl rfl).trans (by decide)⟩

/-- C5 counterexample: time returned, location partial (`lat` present, `lon`
and `time` absent — the position fields are not applied, witness the
unchanged `position_time`). The claim says a partial result leaves the
tracker `Trying`; the tracker actually ends `Retrieved`. -/
theorem c5_counterexample :
    (check_retrieve ⟨0, 0, 0, 0, .Trying 0⟩ ⟨⟨61000⟩, 0, 0, 0⟩
        ⟨.ok ⟨some 1, none, none⟩, .ok (), .ok ⟨some 42⟩⟩).loc.state =
      .Retrieved 42000 ∧
    (check_retrieve ⟨0, 0, 0, 0, .Trying 0⟩ ⟨⟨61000⟩, 0, 0, 0⟩
        ⟨.ok ⟨some 1, none, none⟩, .ok (), .ok ⟨some 42⟩⟩).shared.position_time
      = 0 ∧
    ¬ (check_retrieve ⟨0, 0, 0, 0, .Trying 0⟩ ⟨⟨61000⟩, 0, 0, 0⟩
        ⟨.ok ⟨some 1, none, none⟩, .ok (), .ok ⟨some 42⟩⟩).loc.state =
      .Trying 61000 := by
  decide

/- ### Claim C6 -/

/-- C6 amended: a call with `now - t ≤ LOCATION_DIFF` performs no peer
request and changes nothing; when the threshold has elapsed and the two peer
requests go through without transport error, the state timestamp is updated —
to the corrected clock on full success, to `now` otherwise — so the next
attempt waits at least `LOCATION_DIFF`; but a transport error (propagated by
`?`) leaves the state, and hence the old timestamp, unchanged. -/
theorem c6_backoff (loc : Location) (st : SharedState) (peer : Peer) :
    (¬ st.rtc.millis - loc.state.timestamp > LOCATION_DIFF →
      check_retrieve loc st peer = ⟨.ok (), loc, st, [⟨[.clock], []⟩]⟩) ∧
    (∀ gps : GpsLocation,
      st.rtc.millis - loc.state.timestamp > LOCATION_DIFF →
      peer.location = .ok gps → peer.time_start = .ok () →
      (check_retrieve loc st peer).loc.state.timestamp =
        match peer.time_wait, gps.lat with
        | .ok ⟨some time⟩, some _ => (time : Int) * 1000
        | _, _ => st.rtc.millis) := by
  constructor
  · intro hnot
    obtain ⟨lla, llo, lpt, ltm, ls⟩ := loc
    cases ls <;>
      simp only [LocationState.timestamp] at hnot <;>
      simp [check_retrieve, hnot]
  · intro gps helapsed hloc hts
    have h5 := c5_retrieved_condition loc st peer gps helapsed hloc hts
    rw [h5]
    obtain ⟨glat, glon, gtime⟩ := gps
    rcases htw : peer.time_wait with e | ⟨tmo⟩ <;>
      rcases glat with _ | la <;>
      (try rcases tmo with _ | tval) <;>
      simp [LocationState.timestamp]

/-- C6 witness: below the threshold nothing happens; above it, an attempt
that got a transport-clean but empty answer still moves the timestamp to
`now = 61000`. -/
theorem c6_witness :
    check_retrieve ⟨0, 0, 0, 0, .Trying 0⟩ ⟨⟨30000⟩, 0, 0, 0⟩
        ⟨.error (.err 9), .ok (), .error (.err 9)⟩ =
      ⟨.ok (), ⟨0, 0, 0, 0, .Trying 0⟩, ⟨⟨30000⟩, 0, 0, 0⟩,
        [⟨[.clock], []⟩]⟩ ∧
    (check_retrieve ⟨0, 0, 0, 0, .Trying 0⟩ ⟨⟨61000⟩, 0, 0, 0⟩
        ⟨.ok ⟨none, none, none⟩, .ok (), .error (.err 1)⟩).loc.state.timestamp
      = 61000 :=
  ⟨(c6_backoff ⟨0, 0, 0, 0, .Trying 0⟩ ⟨⟨30000⟩, 0, 0, 0⟩
      ⟨.error (.err 9), .ok (), .error (.err 9)⟩).1 (by decide),
   ((c6_backoff ⟨0, 0, 0, 0, .Trying 0⟩ ⟨⟨61000⟩, 0, 0, 0⟩
       ⟨.ok ⟨none, none, none⟩, .ok (), .error (.err 1)⟩).2
     ⟨none, none, none⟩ (by decide) rfl rfl).trans (by decide)⟩

/-- C6 counterexample: the threshold has elapsed and an attempt is made, but
the location request fails in transport; `check_retrieve` propagates the
error without touching the state, so the timestamp stays 0 instead of being
updated to the current time 61000 — the next call will retry immediately
rather than after `LOCATION_DIFF`. -/
theorem c6_counterexample :
    ((⟨⟨61000⟩, 0, 0, 0⟩ : SharedState).rtc.millis - (0 : Int) >
      LOCATION_DIFF) ∧
    (check_retrieve ⟨0, 0, 0, 0, .Trying 0⟩ ⟨⟨61000⟩, 0, 0, 0⟩
        ⟨.error (.err 0), .ok (), .ok ⟨some 42⟩⟩).loc.state.timestamp = 0 ∧
    ¬ (check_retrieve ⟨0, 0, 0, 0, .Trying 0⟩ ⟨⟨61000⟩, 0, 0, 0⟩
        ⟨.error (.err 0), .ok (), .ok ⟨some 42⟩⟩).loc.state.timestamp =
      61000 := by
  decide

/- ### Claim C7 -/

/-- A critical-section acquisition is single-purpose: it writes nothing, or
exactly the clock, or exactly the three position fields together. -/
def good_event (ev : CsEvent) : Bool :=
  ev.writes == [] || ev.writes == [SField.clock] ||
    ev.writes == [SField.position_time, SField.lat, SField.lon]

/-- C7 amended: every critical-section acquisition `check_retrieve` performs
either writes nothing, writes exactly the clock, or writes exactly the three
position fields together — so the position triple is torn-write-free — but
the clock and the position fields are written in two *separate* acquisitions,
not one, so a reader can observe a new clock with an old position. -/
theorem c7_critical_sections (loc : Location) (st : SharedState)
    (peer : Peer) :
    ((check_retrieve loc st peer).trace.all good_event) = true := by
  obtain ⟨lla, llo, lpt, ltm, ls⟩ := loc
  cases ls <;> rename_i t <;>
    by_cases hif : st.rtc.millis - t > LOCATION_DIFF <;>
    [skip; (simp [check_retrieve, hif, good_event]);
     skip; (simp [check_retrieve, hif, good_event])] <;>
    rcases hloc : peer.location with e | ⟨glat, glon, gtime⟩ <;>
    rcases hts : peer.time_start with e2 | u <;>
    rcases htw : peer.time_wait with e3 | ⟨tmo⟩ <;>
    (try rcases glat with _ | la) <;>
    (try rcases glon with _ | lo) <;>
    (try rcases gtime with _ | pt) <;>
    (try rcases tmo with _ | tval) <;>
    simp [check_retrieve, hif, hloc, hts, htw, good_event]

/-- C7 counterexample: a fully successful attempt (time and complete location
returned) performs two distinct writing critical sections — one for the
clock, one for the position fields — so the four shared fields are *not*
updated inside one critical-section acquisition, contrary to the claim. -/
theorem c7_counterexample :
    ((check_retrieve ⟨0, 0, 0, 0, .Trying 0⟩ ⟨⟨61000⟩, 0, 0, 0⟩
        ⟨.ok ⟨some 1, some 2, some 3⟩, .ok (), .ok ⟨some 42⟩⟩).trace.countP
      (fun ev => !ev.writes.isEmpty)) = 2 ∧
    ¬ ((check_retrieve ⟨0, 0, 0, 0, .Trying 0⟩ ⟨⟨61000⟩, 0, 0, 0⟩
        ⟨.ok ⟨some 1, some 2, some 3⟩, .ok (), .ok ⟨some 42⟩⟩).trace.countP
      (fun ev => !ev.writes.isEmpty)) ≤ 1 := by
  decide

/- ### Claim C9 -/

/-- A file of records that all have length `sz` has total length
`count * sz`. -/
theorem flatten_length_of (sz : Nat) (rs : List (List UInt8))
    (h : ∀ r ∈ rs, r.length = sz) :
    rs.flatten.length = rs.length * sz := by
  induction rs with
  | nil => simp
  | cons r rest ih =>
    simp only [List.flatten_cons, List.length_append, List.length_cons]
    rw [h r (by simp), ih (fun x hx => h x (by simp [hx]))]
    ring

/-- Chunking the concatenation of `sz`-sized records recovers the records. -/
theorem chunks_n_flatten (sz : Nat) :
    ∀ rs : List (List UInt8), (∀ r ∈ rs, r.length = sz) →
      chunks_n sz rs.length rs.flatten = rs := by
  intro rs
  induction rs with
  | nil => intro _; rfl
  | cons r rest ih =>
    intro h
    have hr : r.length = sz := h r (by simp)
    simp only [List.length_cons, chunks_n, List.flatten_cons]
    rw [show (r ++ rest.flatten).take sz = r from by
        rw [← hr]; exact List.take_left r rest.flatten,
      show (r ++ rest.flatten).drop sz = rest.flatten from by
        rw [← hr]; exact List.drop_left r rest.flatten,
      ih (fun x hx => h x (by simp [hx]))]

/-- `mapM` over `Except` succeeds, preserving the length, when the decoder
succeeds on every element. -/
theorem mapM_ok_of_all_ok {π : Type} (decode : List UInt8 → Except Unit π) :
    ∀ rs : List (List UInt8), (∀ r ∈ rs, ∃ p, decode r = .ok p) →
      ∃ ps : List π, rs.mapM decode = .ok ps ∧ ps.length = rs.length := by
  intro rs
  induction rs with
  | nil => intro _; exact ⟨[], rfl, rfl⟩
  | cons r rest ih =>
    intro h
    obtain ⟨p, hp⟩ := h r (by simp)
    obtain ⟨ps, hps, hl⟩ := ih (fun x hx => h x (by simp [hx]))
    refine ⟨p :: ps, ?_, by simp [hl]⟩
    rw [List.mapM_cons, hp, hps]
    rfl

/-- C9: `Collection::from_file` fails fast on every file whose byte length is
not an exact multiple of the record size, and decodes every file made of `N`
validly-encoded fixed-size records to exactly `N` packets. -/
theorem c9_collection_decode {π : Type} (sz : Nat) (hsz : 0 < sz)
    (decode : List UInt8 → Except Unit π) :
    (∀ b : List UInt8, ¬ b.length % sz = 0 →
      from_file sz decode b = .error ()) ∧
    (∀ rs : List (List UInt8), (∀ r ∈ rs, r.length = sz) →
      (∀ r ∈ rs, ∃ p, decode r = .ok p) →
      ∃ ps, from_file sz decode rs.flatten = .ok ps ∧
        ps.length = rs.length) := by
  constructor
  · intro b hb
    simp [from_file, hb]
  · intro rs hlen hdec
    have hfl : rs.flatten.length = rs.length * sz := flatten_length_of sz rs hlen
    have hmod : rs.flatten.length % sz = 0 := by
      rw [hfl]; exact Nat.mul_mod_left _ _
    have hdiv : rs.flatten.length / sz = rs.length := by
      rw [hfl]; exact Nat.mul_div_cancel _ hsz
    obtain ⟨ps, hps, hl⟩ := mapM_ok_of_all_ok decode rs hdec
    refine ⟨ps, ?_, hl⟩
    simp only [from_file, if_pos hmod]
    rw [hdiv, chunks_n_flatten sz rs hlen, hps]

/-- C9 witness: with record size 2 and a decoder accepting 2-byte chunks, a
3-byte file fails fast and a file of two valid records decodes to exactly two
packets. -/
theorem c9_witness :
    from_file 2 (fun r => if r.length = 2 then Except.ok r else .error ())
        [0, 1, 2] = .error () ∧
    ∃ ps, from_file 2
        (fun r => if r.length = 2 then Except.ok r else .error ())
        (([[0, 1], [2, 3]] : List (List UInt8)).flatten) = .ok ps ∧
      ps.length = 2 := by
  have h := c9_collection_decode 2 (by decide)
    (fun r => if r.length = 2 then Except.ok r else .error ())
  refine ⟨h.1 [0, 1, 2] (by decide), ?_⟩
  obtain ⟨ps, h1, h2⟩ := h.2 [[0, 1], [2, 3]] (by decide)
    (by
      intro r hr
      simp only [List.mem_cons, List.not_mem_nil, or_false] at hr
      rcases hr with rfl | rfl
      · exact ⟨[0, 1], rfl⟩
      · exact ⟨[2, 3], rfl⟩)
  exact ⟨ps, h1, h2⟩

end Sfy
